import Mathlib

/-!
Shallow embedding of `packages/apollo/src/commands/service/check.ts`
(the `service:check` / `schema:check` command of apollo-tooling) and the
historic-parameter validator it calls, together with theorems settling the
frozen claims about the command.

Conventions of the embedding:
* JS strings are Lean `String`s; nullable/optional JS values are `Option`s.
* JS truthiness on strings (`x || y`, `if (x)`) is modelled explicitly:
  `undefined`/`null` and `""` are falsy.
* The external collaborators (schema resolution, git info, the Engine
  `checkSchema` network call, the `heroku-cli-util` table renderer, oclif
  logging/exit) are modelled as effects recorded in a trace; their results
  are inputs to the embedded `run`.
* Machine integers: the quantities involved (second offsets, list lengths)
  are modelled as `Int`/`Nat`; JS numbers on these inputs behave as exact
  integers in every operation the code performs on them.
-/

namespace ServiceCheck

/-- `ChangeType` string enum from `apollo-language-server/lib/graphqlTypes`:
the closed severity enumeration `{FAILURE, WARNING, NOTICE}`. -/
inductive ChangeType where
  | FAILURE
  | WARNING
  | NOTICE
deriving DecidableEq, BEq, Repr

/-- The canonical string value of a `ChangeType` member (TS string enum). -/
def ChangeType.str : ChangeType → String
  | .FAILURE => "FAILURE"
  | .WARNING => "WARNING"
  | .NOTICE => "NOTICE"

/-- `CheckSchema_service_checkSchema_diffToPrevious_changes` (aliased
`Change` in the source): one detected schema difference. -/
structure Change where
  type : ChangeType
  code : String
  description : String
deriving DecidableEq, Repr

/-- The `validationConfig` of the diff result: the validation window, as
signed second offsets from "now" (`from <= to <= 0` for windows produced by
the validator, but the formatter accepts any values). -/
structure ValidationConfig where
  «from» : Int
  «to» : Int
deriving DecidableEq, Repr

/-- An affected query/operation (`diffToPrevious.affectedQueries` element);
only its presence (the list length) is consumed by the command. -/
structure AffectedQuery where
  id : String
deriving DecidableEq, Repr

/-- `diffToPrevious` of the check result. -/
structure DiffToPrevious where
  changes : List Change
  validationConfig : ValidationConfig
  affectedQueries : List AffectedQuery
deriving DecidableEq, Repr

/-- `CheckSchema_service_checkSchema`: the result of the external check
call. `targetUrl` is nullable in the GraphQL type (`string | null`). -/
structure CheckSchemaResult where
  targetUrl : Option String
  diffToPrevious : DiffToPrevious
deriving DecidableEq, Repr

/-- The number of `FAILURE`-typed changes
(`changes.filter(c => c.type === "FAILURE").length`). -/
def breakingCount (r : CheckSchemaResult) : Nat :=
  (r.diffToPrevious.changes.filter (fun ch => ch.type == ChangeType.FAILURE)).length

/-- JS template interpolation of a nullable string: `null` renders as the
four characters `null`. -/
def jsString : Option String → String
  | some s => s
  | none => "null"

/-- The elapsed-day count computed by `formatMarkdown`:
`-moment().add(from, "second").diff(moment().add(to, "second"), "days")`.
`moment.diff(_, "days")` divides the millisecond difference by 86 400 000
and truncates toward zero (moment's `absFloor`); both `moment()` calls are
modelled as the same instant, so the difference is `(from - to)` seconds.
Truncation toward zero of an exact integer quotient is `Int.tdiv`. -/
def days (vc : ValidationConfig) : Int :=
  -(Int.tdiv (vc.«from» - vc.«to») 86400)

/-- The day phrase interpolated into the Markdown document:
`days === 1 ? "day" : days + " days"`. -/
def daysPhrase (vc : ValidationConfig) : String :=
  if days vc = 1 then "day" else toString (days vc) ++ " days"

/-- The conditional breaking-changes line of the Markdown document
(`breakingChanges.length > 0 ? ... : ...`); the positive branch recomputes
the same `FAILURE` filter for the count. -/
def breakingLine (r : CheckSchemaResult) : String :=
  if 0 < breakingCount r then
    "❌ Found **" ++ toString (breakingCount r)
      ++ " breaking changes** that would affect **"
      ++ toString r.diffToPrevious.affectedQueries.length ++ " operations**"
  else
    "✅ Found **no breaking changes**."

/-- The terminal reference-link line of the Markdown document; the
interpolation `${checkSchemaResult.targetUrl}` is unconditional, a `null`
`targetUrl` renders as the literal text `null`. -/
def mdLinkLine (r : CheckSchemaResult) : String :=
  "🔗 [View your service check details](" ++ jsString r.targetUrl ++ ")."

/-- The narrowed config parameter of `formatMarkdown`
(`{service: {name: string}, tag: string}`). -/
structure MarkdownConfig where
  serviceName : String
  tag : String
deriving DecidableEq, Repr

/-- The part of the Markdown template before the conditional
breaking-changes line: title, tag/service line, and the compared-changes
line with the elapsed-day phrase. -/
def mdHeader (checkSchemaResult : CheckSchemaResult)
    (config : MarkdownConfig) : String :=
  "\n### Apollo Service Check\n🔄 Validated your local schema against schema tag \x27"
    ++ config.tag
    ++ "\x27 on service \x27"
    ++ config.serviceName
    ++ "\x27.\n🔢 Compared **"
    ++ toString checkSchemaResult.diffToPrevious.changes.length
    ++ " schema changes** against operations seen over the **last "
    ++ daysPhrase checkSchemaResult.diffToPrevious.validationConfig
    ++ "**.\n"

/-- `formatMarkdown`: the exact template literal of the source, as a
concatenation of its fragments and interpolations. -/
def formatMarkdown (checkSchemaResult : CheckSchemaResult)
    (config : MarkdownConfig) : String :=
  mdHeader checkSchemaResult config
    ++ breakingLine checkSchemaResult
    ++ "\n\n"
    ++ mdLinkLine checkSchemaResult
    ++ "\n"

/-- The day count the spec prescribes for Markdown mode, in the spec's own
words: `days = ceil(|to - from| / 86400)` (kept separate from the source's
`days` so the two can be compared). -/
def specMarkdownDays (vc : ValidationConfig) : Int :=
  (((vc.«to» - vc.«from»).natAbs + 86399) / 86400 : Nat)

/-! ## JSON output

`JSON.stringify({ targetUrl, changes, validationConfig }, null, 2)` is
modelled at the level of the JSON document tree: the tree captures every
field and value of the emitted document (the document is syntactically
valid by construction); the `null, 2` pretty-printing arguments only add
whitespace, which carries no information. -/

/-- A JSON value, as produced by `JSON.stringify` on the data at hand. -/
inductive Json where
  | null
  | str (s : String)
  | num (n : Int)
  | arr (elems : List Json)
  | obj (fields : List (String × Json))

/-- `JSON.stringify` of one `Change` object (field insertion order of the
GraphQL type: `type`, `code`, `description`; the enum serializes as its
string value). -/
def encodeChange (c : Change) : Json :=
  .obj [("type", .str c.type.str), ("code", .str c.code),
        ("description", .str c.description)]

/-- `JSON.stringify` of a nullable string. -/
def encodeNullableString : Option String → Json
  | some s => .str s
  | none => .null

/-- The JSON document emitted in JSON mode:
`{ targetUrl, changes, validationConfig }` in that insertion order. -/
def encodeCheckJson (targetUrl : Option String) (changes : List Change)
    (validationConfig : ValidationConfig) : Json :=
  .obj [("targetUrl", encodeNullableString targetUrl),
        ("changes", .arr (changes.map encodeChange)),
        ("validationConfig",
          .obj [("from", .num validationConfig.«from»),
                ("to", .num validationConfig.«to»)])]

/-- The top-level field names of a JSON object document. -/
def Json.topFields : Json → List String
  | .obj fields => fields.map Prod.fst
  | _ => []

/-- Decoder for one serialized `Change`. -/
def decodeChange : Json → Option Change
  | .obj [("type", .str t), ("code", .str c), ("description", .str d)] =>
    match t with
    | "FAILURE" => some ⟨.FAILURE, c, d⟩
    | "WARNING" => some ⟨.WARNING, c, d⟩
    | "NOTICE" => some ⟨.NOTICE, c, d⟩
    | _ => none
  | _ => none

/-- Decoder for the serialized nullable `targetUrl`. -/
def decodeNullableString : Json → Option (Option String)
  | .null => some none
  | .str s => some (some s)
  | _ => none

/-- Decoder for a serialized change list. -/
def decodeChanges : List Json → Option (List Change)
  | [] => some []
  | j :: rest =>
    match decodeChange j, decodeChanges rest with
    | some c, some cs => some (c :: cs)
    | _, _ => none

/-- Decoder for the whole JSON-mode document, recovering `targetUrl`, the
change list and the validation window. -/
def decodeCheckJson : Json →
    Option (Option String × List Change × ValidationConfig)
  | .obj [("targetUrl", u), ("changes", .arr cs),
          ("validationConfig", .obj [("from", .num f), ("to", .num t)])] =>
    match decodeNullableString u, decodeChanges cs with
    | some url, some changes => some (url, changes, ⟨f, t⟩)
    | _, _ => none
  | _ => none

/-! ## Historic-parameter validation

`validateHistoricParams` lives in `src/utils` of the repository, which is
not part of the provided sources; it is modelled from the spec (§4.1). -/

/-- The validation errors of the spec's taxonomy (§4.1/§7). -/
inductive ValidationError where
  | InvalidDuration
  | ConflictingThresholds
  | ThresholdOutOfRange
deriving DecidableEq, Repr

/-- Modelled from the spec: the `ValidationWindow` built by the validator,
`{from: -P, to: 0}` for a period of `P` seconds (§3, §4.1). -/
structure ValidationWindow where
  «from» : Int
  «to» : Int
deriving DecidableEq, Repr

/-- Modelled from the spec: the validated historic parameters (§3). The
window is present exactly when a validation period was supplied. -/
structure HistoricParameters where
  window : Option ValidationWindow
  queryCountThreshold : Option Int
  queryCountThresholdPercentage : Option ℚ
deriving DecidableEq, Repr

/-- Total seconds of one ISO-8601 duration component. Calendar-free
conversion factors (the spec fixes none): a year is 365 days, a month 30
days. `inTime` distinguishes minutes from months for the letter `M`. -/
def isoUnitSeconds (inTime : Bool) : Char → Option Int
  | 'Y' => if inTime then none else some 31536000
  | 'M' => if inTime then some 60 else some 2592000
  | 'W' => if inTime then none else some 604800
  | 'D' => if inTime then none else some 86400
  | 'H' => if inTime then some 3600 else none
  | 'S' => if inTime then some 1 else none
  | _ => none

/-- One pass over the component list of an ISO-8601 duration body
(everything after the leading `P`), accumulating total seconds. -/
def isoComponents (inTime : Bool) (acc : Option Nat) : List Char → Option Int
  | [] => match acc with
    | some _ => none
    | none => some 0
  | c :: rest =>
    if c = 'T' then
      match acc with
      | some _ => none
      | none => if inTime then none else isoComponents true none rest
    else if c.isDigit then
      isoComponents inTime (some (acc.getD 0 * 10 + (c.toNat - '0'.toNat))) rest
    else
      match acc, isoUnitSeconds inTime c with
      | some n, some unit => do
        let tail ← isoComponents inTime none rest
        pure (n * unit + tail)
      | _, _ => none

/-- Modelled from the spec: the ISO-8601 duration grammar accepted for
`--validationPeriod` (years/months/weeks/days/hours/minutes/seconds
components, §4.1), converted to total seconds. -/
def parseIsoDuration (s : String) : Option Int :=
  match s.toList with
  | 'P' :: rest => if rest = [] then none else isoComponents false none rest
  | _ => none

/-- Modelled from the spec: `--validationPeriod` accepts either a plain
integer number of seconds or an ISO-8601 duration expression (§4.1). -/
def parsePeriodSeconds (s : String) : Option Int :=
  match s.toInt? with
  | some n => some n
  | none => parseIsoDuration s

/-- Modelled from the spec: `validateHistoricParams` (§4.1), the parameter
validator from the repository's `src/utils` (not among the provided
sources). All three inputs absent yields "no historic parameters"; the two
thresholds are mutually exclusive; the percentage must lie in `[0, 0.05]`;
the period must parse and be positive, and yields the window
`{from: -P, to: 0}`. -/
def validateHistoricParams (validationPeriod : Option String)
    (queryCountThreshold : Option Int)
    (queryCountThresholdPercentage : Option ℚ) :
    Except ValidationError (Option HistoricParameters) :=
  match validationPeriod, queryCountThreshold, queryCountThresholdPercentage with
  | none, none, none => .ok none
  | _, _, _ =>
    if queryCountThreshold.isSome ∧ queryCountThresholdPercentage.isSome then
      .error .ConflictingThresholds
    else if queryCountThresholdPercentage.any (fun p => p < 0 ∨ 1/20 < p) then
      .error .ThresholdOutOfRange
    else
      match validationPeriod with
      | none =>
        .ok (some ⟨none, queryCountThreshold, queryCountThresholdPercentage⟩)
      | some raw =>
        match parsePeriodSeconds raw with
        | none => .error .InvalidDuration
        | some P =>
          if P ≤ 0 then .error .InvalidDuration
          else
            .ok (some ⟨some ⟨-P, 0⟩, queryCountThreshold,
                       queryCountThresholdPercentage⟩)

/-! ## Table rows -/

/-- The chalk color applied to a table cell: `chalk.red`, `chalk.yellow`,
or the identity function (no emphasis). -/
inductive CellColor where
  | red
  | yellow
  | plain
deriving DecidableEq, Repr

/-- The color chosen by `formatChange`: starts as the identity, is set to
red by the first `if` when the type is `FAILURE`, and to yellow by the
second `if` when the type is `WARNING`. -/
def changeColor (change : Change) : CellColor :=
  let color := CellColor.plain
  let color := if change.type == ChangeType.FAILURE then CellColor.red else color
  let color := if change.type == ChangeType.WARNING then CellColor.yellow else color
  color

/-- One table row as built by `formatChange`: the three cell texts, each
wrapped by the chosen color function (modelled as a tag on the text). -/
structure FormattedChange where
  type : CellColor × String
  code : CellColor × String
  description : CellColor × String
deriving DecidableEq, Repr

/-- `formatChange`: applies the severity color to all three cells. -/
def formatChange (change : Change) : FormattedChange :=
  { type := (changeColor change, change.type.str)
    code := (changeColor change, change.code)
    description := (changeColor change, change.description) }

/-- The column configuration passed to `table(...)`: `(key, label)` pairs. -/
def tableColumns : List (String × String) :=
  [("type", "Change"), ("code", "Code"), ("description", "Description")]

/-! ## The `run` orchestrator -/

/-- Version-control metadata. Modelled from the spec: the provider
"returns commit/branch/author metadata or an empty context if unavailable"
(§6); `gitInfo` itself is outside the provided sources and the command only
forwards its result. -/
structure GitContext where
  commit : Option String
  branch : Option String
  author : Option String
deriving DecidableEq, Repr

/-- The command flags consumed by `run` (`--tag`, `--validationPeriod`,
`--queryCountThreshold`, `--queryCountThresholdPercentage`, `--json`,
`--markdown`, plus the inherited `--frontend`). -/
structure Flags where
  tag : Option String
  validationPeriod : Option String
  queryCountThreshold : Option Int
  queryCountThresholdPercentage : Option ℚ
  json : Bool
  markdown : Bool
  frontend : Option String
deriving Repr

/-- The parts of the resolved `ApolloConfig` that `run` reads: the service
name (`config.name`), the configured tag (`config.tag`) and the engine
frontend (`config.engine.frontend`). `ApolloConfig` itself is external to
the provided sources; fields the command never reads are omitted. -/
structure Config where
  name : Option String
  tag : Option String
  engineFrontend : String
deriving Repr

/-- JS truthiness fallback on nullable strings with a string default:
`a || d` (both `undefined`/`null` and `""` fall through). -/
def strFalsyOr (a : Option String) (d : String) : String :=
  match a with
  | some s => if s = "" then d else s
  | none => d

/-- JS falsiness of `config.name` (`!config.name`). -/
def nameFalsy (c : Config) : Bool :=
  c.name == none || c.name == some ""

/-- The tag used to resolve the local schema:
`flags.tag || config.tag || "current"`. -/
def defaultedTag (f : Flags) (c : Config) : String :=
  strFalsyOr f.tag (strFalsyOr c.tag "current")

/-- The payload of `project.engine.checkSchema({...})` — the single network
call to the external check service. The `schema` field (the introspected
local schema) is opaque to every claim and is omitted. -/
structure CheckSchemaRequest where
  id : String
  tag : Option String
  gitContext : Option GitContext
  frontend : String
  historicParameters : Option HistoricParameters
deriving Repr

/-- One observable action of `run`, in program order. -/
inductive Effect where
  | resolveSchema (tag : String)
  | gitInfo
  | checkSchema (req : CheckSchemaRequest)
  | jsonOut (doc : Json)
  | log (s : String)
  | table (rows : List FormattedChange) (columns : List (String × String))

/-- Is this effect the network call to the external check service? -/
def Effect.isCheckSchema : Effect → Bool
  | .checkSchema _ => true
  | _ => false

/-- Is this effect a table rendering? -/
def Effect.isTable : Effect → Bool
  | .table _ _ => true
  | _ => false

/-- The errors `run` can throw before producing a report: the missing
service identity (`throw new Error("No service found to link to Engine")`)
and a `ValidationError` from the historic-parameter validator. Failures of
the external collaborators (schema resolution, the check call itself)
propagate as-is and are outside this embedding: their results are inputs. -/
inductive RunError where
  | missingServiceIdentity
  | validation (e : ValidationError)
deriving DecidableEq, Repr

/-- The process exit signal. `this.exit()` on the failure path is the
"exit with failing status" of the source's own comment; emitting the report
and returning normally is the success signal. -/
inductive ExitStatus where
  | success
  | failure
deriving DecidableEq, Repr

/-- What one invocation of `run` did: its effect trace and its outcome. -/
structure RunOutcome where
  trace : List Effect
  result : Except RunError ExitStatus

/-- JS template interpolation of a possibly-`undefined` string (an absent
`config.tag`/`config.name` renders as the literal text `undefined`). -/
def jsUndefString : Option String → String
  | some s => s
  | none => "undefined"

/-- The config view handed to `formatMarkdown` by `run` (the same
`ApolloConfig` object, narrowed to the fields the formatter reads). -/
def mdConfig (c : Config) : MarkdownConfig :=
  { serviceName := jsUndefString c.name, tag := jsUndefString c.tag }

/-- `ServiceCheck.run`, embedded. External results are inputs: `gitCtx` is
what `gitInfo` returned and `checkSchemaResult` is what the external check
service returned (schema resolution is recorded as an effect; its resolved
schema value is consumed only by the check call's opaque `schema` field).
The steps follow the source in program order:
1. `if (!config.name) throw` — missing service identity;
2. `resolveSchema` with the defaulted tag, then `gitInfo`;
3. `validateHistoricParams` — a `ValidationError` aborts the run;
4. `engine.checkSchema` with the raw `flags.tag`;
5. the output phase: JSON, Markdown, or table, then the exit decision
   (reached only on the table path — the JSON and Markdown branches
   `return` from `run` immediately after logging). -/
def run (flags : Flags) (config : Config) (gitCtx : Option GitContext)
    (checkSchemaResult : CheckSchemaResult) : RunOutcome :=
  if nameFalsy config then
    { trace := [], result := .error .missingServiceIdentity }
  else
    let tag := defaultedTag flags config
    let preTrace := [Effect.resolveSchema tag, Effect.gitInfo]
    match validateHistoricParams flags.validationPeriod
        flags.queryCountThreshold flags.queryCountThresholdPercentage with
    | .error e => { trace := preTrace, result := .error (.validation e) }
    | .ok historicParameters =>
      let req : CheckSchemaRequest :=
        { id := jsUndefString config.name
          tag := flags.tag
          gitContext := gitCtx
          frontend := strFalsyOr flags.frontend config.engineFrontend
          historicParameters := historicParameters }
      let trace₁ := preTrace ++ [Effect.checkSchema req]
      let targetUrl := checkSchemaResult.targetUrl
      let changes := checkSchemaResult.diffToPrevious.changes
      let validationConfig := checkSchemaResult.diffToPrevious.validationConfig
      let failures := changes.filter (fun ch => ch.type == ChangeType.FAILURE)
      if flags.json then
        { trace := trace₁ ++
            [Effect.jsonOut (encodeCheckJson targetUrl changes validationConfig)]
          result := .ok .success }
      else if flags.markdown then
        { trace := trace₁ ++
            [Effect.log (formatMarkdown checkSchemaResult (mdConfig config))]
          result := .ok .success }
      else if changes.length = 0 then
        { trace := trace₁ ++ [Effect.log "\nNo changes present between schemas\n"]
          result := .ok .success }
      else
        { trace := trace₁ ++
            [Effect.log "\n", Effect.table (changes.map formatChange) tableColumns,
             Effect.log "\n"] ++
            (match targetUrl with
             | some u =>
               if u = "" then [] else [Effect.log ("View full details at: " ++ u)]
             | none => [])
          result := if 0 < failures.length then .ok .failure else .ok .success }

/-! ## Helper lemmas -/

/-- A string ending in " days" is never the three-character string "day". -/
lemma append_days_ne_day (s : String) : s ++ " days" ≠ "day" := by
  intro h
  have h2 := congrArg String.length h
  rw [String.length_append] at h2
  have e1 : (" days").length = 5 := rfl
  have e2 : ("day").length = 3 := rfl
  omega

/-- The positive branch of the breaking-changes line never coincides with
the no-breaking-changes statement (their first characters differ). -/
lemma breaking_ne_noBreaking (a b c d : String) :
    "❌ Found **" ++ a ++ b ++ c ++ d ≠ "✅ Found **no breaking changes**." := by
  intro h
  have h1 : ("❌ Found **" ++ a ++ b ++ c ++ d).data.head? = some '❌' := rfl
  rw [h] at h1
  exact absurd (Option.some.inj h1) (by decide)

/-! ## Claims -/

/-- Fixture: a one-failure result over a 90 000-second window (1.04 days). -/
def md3r : CheckSchemaResult :=
  ⟨some "https://engine.example/check/42",
   ⟨[⟨.FAILURE, "FIELD_REMOVED", "Field removed"⟩], ⟨-90000, 0⟩, [⟨"q1"⟩]⟩⟩

/-- Fixture: a warning-only result with no `targetUrl`. -/
def md5r : CheckSchemaResult :=
  ⟨none, ⟨[⟨.WARNING, "FIELD_DEPRECATED", "Field deprecated"⟩],
   ⟨-604800, 0⟩, []⟩⟩

set_option maxRecDepth 4096 in
/-- C3 (counterexample): for the window `{from: -90000, to: 0}` the spec's
`ceil(|to - from| / 86400)` is `2`, but the rendered Markdown document
says "last **day**" — the code's `moment().diff(_, "days")` truncates the
1.04-day span down to `1`, it does not take the ceiling. -/
theorem c3_days_counterexample :
    days ⟨-90000, 0⟩ = 1 ∧
    daysPhrase ⟨-90000, 0⟩ = "day" ∧
    specMarkdownDays ⟨-90000, 0⟩ = 2 ∧
    formatMarkdown md3r ⟨"svc", "current"⟩ =
      "\n### Apollo Service Check\n🔄 Validated your local schema against schema tag \x27current\x27 on service \x27svc\x27.\n🔢 Compared **1 schema changes** against operations seen over the **last day**.\n❌ Found **1 breaking changes** that would affect **1 operations**\n\n🔗 [View your service check details](https://engine.example/check/42).\n" := by
  refine ⟨by decide, by decide, by decide, by decide⟩

/-- C3 (amended): for every window with `from <= to`, Markdown mode renders
an elapsed-day count equal to `(to - from)/86400` truncated toward zero —
that is, the *floor* of `|to - from| / 86400`, not its ceiling — the count
is non-negative, and the unit is the singular word "day" exactly when the
count equals 1. -/
theorem c3_days_amended (vc : ValidationConfig) (h : vc.«from» ≤ vc.«to») :
    days vc = (vc.«to» - vc.«from»).tdiv 86400 ∧
    0 ≤ days vc ∧
    days vc = (((vc.«to» - vc.«from»).toNat / 86400 : Nat) : Int) ∧
    (daysPhrase vc = "day" ↔ days vc = 1) := by
  have hnn : 0 ≤ vc.«to» - vc.«from» := by omega
  have e1 : days vc = (vc.«to» - vc.«from»).tdiv 86400 := by
    unfold days
    rw [show vc.«from» - vc.«to» = -(vc.«to» - vc.«from») by ring,
      Int.neg_tdiv, neg_neg]
  refine ⟨e1, ?_, ?_, ?_⟩
  · rw [e1]
    exact Int.tdiv_nonneg hnn (by norm_num)
  · rw [e1]
    conv_lhs => rw [← Int.toNat_of_nonneg hnn]
    rfl
  · unfold daysPhrase
    constructor
    · intro hd
      by_contra hne
      rw [if_neg hne] at hd
      exact append_days_ne_day _ hd
    · intro hd
      rw [if_pos hd]

/-- C3 (witness): the amended statement evaluated on the 7-day window. -/
theorem c3_days_amended_witness :
    days ⟨-604800, 0⟩ = ((0 : Int) - (-604800)).tdiv 86400 ∧
    0 ≤ days ⟨-604800, 0⟩ ∧
    days ⟨-604800, 0⟩ = ((((0 : Int) - (-604800)).toNat / 86400 : Nat) : Int) ∧
    (daysPhrase ⟨-604800, 0⟩ = "day" ↔ days ⟨-604800, 0⟩ = 1) :=
  c3_days_amended ⟨-604800, 0⟩ (by decide)

/-- C4: the Markdown document is the header followed by the conditional
breaking-changes line, the reference link and nothing else; the
breaking-changes line is the "no breaking changes" statement exactly when
the number of `FAILURE`-type changes is 0, and otherwise states the count
of `FAILURE`-type changes together with the number of affected
operations. -/
theorem c4_breaking_statement (r : CheckSchemaResult) (c : MarkdownConfig) :
    formatMarkdown r c =
      mdHeader r c ++ breakingLine r ++ "\n\n" ++ mdLinkLine r ++ "\n" ∧
    (breakingLine r = "✅ Found **no breaking changes**." ↔
      breakingCount r = 0) ∧
    (0 < breakingCount r →
      breakingLine r = "❌ Found **" ++ toString (breakingCount r) ++
        " breaking changes** that would affect **" ++
        toString r.diffToPrevious.affectedQueries.length ++
        " operations**") := by
  refine ⟨rfl, ?_, ?_⟩
  · unfold breakingLine
    constructor
    · intro h
      by_contra hne
      rw [if_pos (by omega)] at h
      exact breaking_ne_noBreaking _ _ _ _ h
    · intro h
      rw [if_neg (by omega)]
  · intro h
    unfold breakingLine
    rw [if_pos h]

/-- C4 (witness): the breaking-changes line of the one-failure fixture,
evaluated. -/
theorem c4_breaking_statement_witness :
    breakingLine md3r =
      "❌ Found **1 breaking changes** that would affect **1 operations**" :=
  ((c4_breaking_statement md3r ⟨"svc", "current"⟩).2.2 (by decide)).trans
    (by decide)

set_option maxRecDepth 4096 in
/-- C5 (counterexample): a result that supplies no `targetUrl` still gets
the terminal reference link — rendered with the JS interpolation of `null`
as the literal text `null` — rather than having the link omitted
entirely. -/
theorem c5_link_counterexample :
    md5r.targetUrl = none ∧
    formatMarkdown md5r ⟨"svc", "current"⟩ =
      "\n### Apollo Service Check\n🔄 Validated your local schema against schema tag \x27current\x27 on service \x27svc\x27.\n🔢 Compared **1 schema changes** against operations seen over the **last 7 days**.\n✅ Found **no breaking changes**.\n\n🔗 [View your service check details](null).\n" := by
  refine ⟨rfl, by decide⟩

/-- C5 (amended): the Markdown document always ends with the reference
link followed by a newline; when the external result supplies a
`targetUrl` the link's target is that URL, and when it supplies none the
link is still present with the literal text `null` as its target. -/
theorem c5_link_amended (r : CheckSchemaResult) (c : MarkdownConfig) :
    (∀ u, r.targetUrl = some u →
      formatMarkdown r c = mdHeader r c ++ breakingLine r ++ "\n\n" ++
        ("🔗 [View your service check details](" ++ u ++ ").") ++ "\n") ∧
    (r.targetUrl = none →
      formatMarkdown r c = mdHeader r c ++ breakingLine r ++ "\n\n" ++
        "🔗 [View your service check details](null)." ++ "\n") := by
  constructor
  · intro u hu
    unfold formatMarkdown mdLinkLine jsString
    rw [hu]
  · intro hu
    unfold formatMarkdown mdLinkLine jsString
    rw [hu]
    rfl

/-- C5 (witness): the amended statement evaluated on the one-failure
fixture, which supplies a `targetUrl`. -/
theorem c5_link_amended_witness :
    formatMarkdown md3r ⟨"svc", "current"⟩ =
      mdHeader md3r ⟨"svc", "current"⟩ ++ breakingLine md3r ++ "\n\n" ++
        ("🔗 [View your service check details](https://engine.example/check/42)." )
        ++ "\n" :=
  (c5_link_amended md3r ⟨"svc", "current"⟩).1 "https://engine.example/check/42" rfl

/-- Decoding one encoded change recovers it. -/
lemma decodeChange_encodeChange (ch : Change) :
    decodeChange (encodeChange ch) = some ch := by
  obtain ⟨t, c, d⟩ := ch
  cases t <;> rfl

/-- Decoding an encoded change list recovers it. -/
lemma decodeChanges_map_encodeChange (cs : List Change) :
    decodeChanges (cs.map encodeChange) = some cs := by
  induction cs with
  | nil => rfl
  | cons ch rest ih =>
    simp [List.map_cons, decodeChanges, decodeChange_encodeChange, ih]

/-- C6: the JSON-mode document has exactly the top-level fields
`targetUrl`, `changes` and `validationConfig` (the window), and decoding
it reproduces the `targetUrl`, every change with its three fields, and the
window's `from`/`to` with identical values — a lossless round-trip. -/
theorem c6_json_roundtrip (u : Option String) (cs : List Change)
    (vc : ValidationConfig) :
    (encodeCheckJson u cs vc).topFields =
      ["targetUrl", "changes", "validationConfig"] ∧
    decodeCheckJson (encodeCheckJson u cs vc) = some (u, cs, vc) := by
  refine ⟨rfl, ?_⟩
  cases u <;>
    simp [encodeCheckJson, decodeCheckJson, encodeNullableString,
      decodeNullableString, decodeChanges_map_encodeChange]

/-- Fixture: a well-configured service context. -/
def cfgOk : Config := ⟨some "svc", some "prod", "https://engine.example"⟩

/-- Fixture: a context with no configured service name. -/
def cfgNoName : Config := ⟨none, none, ""⟩

/-- Fixture: flags selecting JSON mode, nothing else set. -/
def flagsJson : Flags := ⟨none, none, none, none, true, false, none⟩

/-- Fixture: default flags (table mode), nothing set. -/
def flagsTable : Flags := ⟨none, none, none, none, false, false, none⟩

/-- Fixture: flags supplying both mutually exclusive thresholds. -/
def flagsBadThresholds : Flags :=
  ⟨none, none, some 5, some (1/100 : ℚ), false, false, none⟩

/-- Fixture: a result with no changes at all. -/
def rEmpty : CheckSchemaResult := ⟨some "https://x", ⟨[], ⟨-604800, 0⟩, []⟩⟩

/-- C1 (counterexample): a result with one `FAILURE` change run in JSON
mode exits with the zero (success) status — the JSON branch returns before
the `failures.length > 0` exit check is ever reached, so a positive
`breakingCount` does not produce a non-zero exit in every output mode. -/
theorem c1_exit_counterexample :
    0 < breakingCount md3r ∧
    flagsJson.json = true ∧
    (run flagsJson cfgOk none md3r).result = .ok .success := by
  refine ⟨by decide, rfl, rfl⟩

/-- C1 (amended): when the service identity resolves and historic-parameter
validation passes, the process exit status is non-zero exactly when the
number of `FAILURE`-type changes is positive AND table mode was selected
(neither the JSON nor the Markdown flag set); in JSON and Markdown modes
the exit status is zero regardless of `breakingCount`. `WARNING`/`NOTICE`
counts never matter. -/
theorem c1_exit_amended (f : Flags) (c : Config) (g : Option GitContext)
    (r : CheckSchemaResult) (hp : Option HistoricParameters)
    (h1 : nameFalsy c = false)
    (h2 : validateHistoricParams f.validationPeriod f.queryCountThreshold
      f.queryCountThresholdPercentage = .ok hp) :
    ((run f c g r).result = .ok .failure ↔
      f.json = false ∧ f.markdown = false ∧ 0 < breakingCount r) := by
  unfold run
  cases hj : f.json with
  | true => simp [h1, h2, hj]
  | false =>
    cases hm : f.markdown with
    | true => simp [h1, h2, hj, hm]
    | false =>
      by_cases hz : r.diffToPrevious.changes.length = 0
      · have hle := List.length_filter_le
          (fun ch => ch.type == ChangeType.FAILURE) r.diffToPrevious.changes
        have hbc : breakingCount r = 0 := by unfold breakingCount; omega
        simp [h1, h2, hj, hm, hz, hbc]
      · simp only [h1, Bool.false_eq_true, if_false, h2, hj, hm, hz]
        unfold breakingCount
        split <;> simp_all

/-- C1 (witness): the one-failure fixture in table mode exits non-zero. -/
theorem c1_exit_amended_witness :
    (run flagsTable cfgOk none md3r).result = .ok .failure :=
  (c1_exit_amended flagsTable cfgOk none md3r none (by decide) rfl).mpr
    ⟨rfl, rfl, by decide⟩

/-- C2: whenever historic-parameter validation fails with a
`ValidationError`, the run's trace contains no `checkSchema` effect — the
network call to the external check service is never issued — and the run
aborts with that error (or it had already aborted on the missing service
identity, with an empty trace). -/
theorem c2_validation_before_check (f : Flags) (c : Config)
    (g : Option GitContext) (r : CheckSchemaResult) (e : ValidationError)
    (h : validateHistoricParams f.validationPeriod f.queryCountThreshold
      f.queryCountThresholdPercentage = .error e) :
    ((run f c g r).trace.all fun ef => !ef.isCheckSchema) = true ∧
    ((run f c g r).result = .error (.validation e) ∨
      (run f c g r).result = .error .missingServiceIdentity) := by
  unfold run
  cases hn : nameFalsy c with
  | true => simp [hn]
  | false => simp [hn, h, Effect.isCheckSchema]

/-- C2 (witness): conflicting thresholds abort the run with no check
call. -/
theorem c2_validation_before_check_witness :
    ((run flagsBadThresholds cfgOk none md3r).trace.all
      fun ef => !ef.isCheckSchema) = true ∧
    ((run flagsBadThresholds cfgOk none md3r).result =
        .error (.validation .ConflictingThresholds) ∨
      (run flagsBadThresholds cfgOk none md3r).result =
        .error .missingServiceIdentity) :=
  c2_validation_before_check flagsBadThresholds cfgOk none md3r
    .ConflictingThresholds rfl

/-- C7: with an empty change list, table mode emits exactly the single
"no changes present" message after the three preparatory effects — zero
table rows — and the run exits with the success status. -/
theorem c7_empty_table (f : Flags) (c : Config) (g : Option GitContext)
    (r : CheckSchemaResult) (hp : Option HistoricParameters)
    (h1 : nameFalsy c = false)
    (h2 : validateHistoricParams f.validationPeriod f.queryCountThreshold
      f.queryCountThresholdPercentage = .ok hp)
    (h3 : f.json = false) (h4 : f.markdown = false)
    (h5 : r.diffToPrevious.changes = []) :
    (run f c g r).trace =
      [Effect.resolveSchema (defaultedTag f c), Effect.gitInfo,
       Effect.checkSchema ⟨jsUndefString c.name, f.tag, g,
         strFalsyOr f.frontend c.engineFrontend, hp⟩,
       Effect.log "\nNo changes present between schemas\n"] ∧
    ((run f c g r).trace.all fun ef => !ef.isTable) = true ∧
    (run f c g r).result = .ok .success := by
  unfold run
  simp [h1, h2, h3, h4, h5, Effect.isTable]

/-- C7 (witness): the empty-changes fixture in table mode. -/
theorem c7_empty_table_witness :
    (run flagsTable cfgOk none rEmpty).trace =
      [Effect.resolveSchema (defaultedTag flagsTable cfgOk), Effect.gitInfo,
       Effect.checkSchema ⟨jsUndefString cfgOk.name, flagsTable.tag, none,
         strFalsyOr flagsTable.frontend cfgOk.engineFrontend, none⟩,
       Effect.log "\nNo changes present between schemas\n"] ∧
    ((run flagsTable cfgOk none rEmpty).trace.all fun ef => !ef.isTable) = true ∧
    (run flagsTable cfgOk none rEmpty).result = .ok .success :=
  c7_empty_table flagsTable cfgOk none rEmpty none (by decide) rfl rfl rfl rfl

/-- C8: with a non-empty change list in table mode, the trace contains one
table effect whose rows are exactly one `formatChange` row per change, in
order, with the columns labelled `Change`, `Code`, `Description`; every
cell of a `FAILURE` row is tagged red, every cell of a `WARNING` row is
tagged yellow, and `NOTICE` rows carry no emphasis tag. -/
theorem c8_table_rows (f : Flags) (c : Config) (g : Option GitContext)
    (r : CheckSchemaResult) (hp : Option HistoricParameters)
    (h1 : nameFalsy c = false)
    (h2 : validateHistoricParams f.validationPeriod f.queryCountThreshold
      f.queryCountThresholdPercentage = .ok hp)
    (h3 : f.json = false) (h4 : f.markdown = false)
    (h5 : r.diffToPrevious.changes ≠ []) :
    Effect.table (r.diffToPrevious.changes.map formatChange) tableColumns
      ∈ (run f c g r).trace ∧
    (r.diffToPrevious.changes.map formatChange).length
      = r.diffToPrevious.changes.length ∧
    tableColumns = [("type", "Change"), ("code", "Code"),
      ("description", "Description")] ∧
    (∀ ch : Change,
      (ch.type = .FAILURE → formatChange ch =
        ⟨(.red, "FAILURE"), (.red, ch.code), (.red, ch.description)⟩) ∧
      (ch.type = .WARNING → formatChange ch =
        ⟨(.yellow, "WARNING"), (.yellow, ch.code), (.yellow, ch.description)⟩) ∧
      (ch.type = .NOTICE → formatChange ch =
        ⟨(.plain, "NOTICE"), (.plain, ch.code), (.plain, ch.description)⟩)) := by
  refine ⟨?_, by simp, rfl, ?_⟩
  · unfold run
    have hz : ¬ r.diffToPrevious.changes.length = 0 := by simpa using h5
    simp [h1, h2, h3, h4, hz]
  · intro ch
    refine ⟨?_, ?_, ?_⟩ <;> intro ht <;>
      simp [formatChange, changeColor, ht, ChangeType.str] <;> decide

/-- C8 (witness): the one-failure fixture's table effect is in the
trace. -/
theorem c8_table_rows_witness :
    Effect.table (md3r.diffToPrevious.changes.map formatChange) tableColumns
      ∈ (run flagsTable cfgOk none md3r).trace :=
  (c8_table_rows flagsTable cfgOk none md3r none (by decide) rfl rfl rfl
    (by decide)).1

/-- C9: when the caller context has no resolvable service identity
(`!config.name`), the run fails with the missing-service-identity error
and its trace is empty — the schema is not resolved and no external call
of any kind is issued. -/
theorem c9_missing_service_identity (f : Flags) (c : Config)
    (g : Option GitContext) (r : CheckSchemaResult)
    (h : nameFalsy c = true) :
    (run f c g r).trace = [] ∧
    (run f c g r).result = .error .missingServiceIdentity := by
  unfold run
  simp [h]

/-- C9 (witness): the no-name configuration aborts immediately. -/
theorem c9_missing_service_identity_witness :
    (run flagsTable cfgNoName none md3r).trace = [] ∧
    (run flagsTable cfgNoName none md3r).result =
      .error .missingServiceIdentity :=
  c9_missing_service_identity flagsTable cfgNoName none md3r (by decide)

/-- C10: the first three effects of every non-aborted run are schema
resolution with the defaulted tag (`flags.tag || config.tag || "current"`),
the git lookup, and the external check call whose `tag` field is the raw
`flags.tag` verbatim; when the tag flag is absent the check call therefore
receives no tag (`none`) while schema resolution used
`config.tag || "current"`. -/
theorem c10_tag_forwarding (f : Flags) (c : Config) (g : Option GitContext)
    (r : CheckSchemaResult) (hp : Option HistoricParameters)
    (h1 : nameFalsy c = false)
    (h2 : validateHistoricParams f.validationPeriod f.queryCountThreshold
      f.queryCountThresholdPercentage = .ok hp) :
    (run f c g r).trace.take 3 =
      [Effect.resolveSchema (defaultedTag f c), Effect.gitInfo,
       Effect.checkSchema ⟨jsUndefString c.name, f.tag, g,
         strFalsyOr f.frontend c.engineFrontend, hp⟩] ∧
    (f.tag = none → defaultedTag f c = strFalsyOr c.tag "current") := by
  constructor
  · unfold run
    cases hj : f.json with
    | true => simp [h1, h2, hj]
    | false =>
      cases hm : f.markdown with
      | true => simp [h1, h2, hj, hm]
      | false =>
        by_cases hz : r.diffToPrevious.changes.length = 0
        · simp [h1, h2, hj, hm, hz]
        · simp [h1, h2, hj, hm, hz]
  · intro ht
    unfold defaultedTag
    rw [ht]
    rfl

/-- C10 (witness): with no tag flag, schema resolution uses the configured
tag while the check call receives `none`. -/
theorem c10_tag_forwarding_witness :
    (run flagsTable cfgOk none md3r).trace.take 3 =
      [Effect.resolveSchema (defaultedTag flagsTable cfgOk), Effect.gitInfo,
       Effect.checkSchema ⟨jsUndefString cfgOk.name, flagsTable.tag, none,
         strFalsyOr flagsTable.frontend cfgOk.engineFrontend, none⟩] ∧
    defaultedTag flagsTable cfgOk = strFalsyOr cfgOk.tag "current" :=
  ⟨(c10_tag_forwarding flagsTable cfgOk none md3r none (by decide) rfl).1,
   (c10_tag_forwarding flagsTable cfgOk none md3r none (by decide) rfl).2 rfl⟩

end ServiceCheck
